import Mathlib

/-!
Shallow embedding of the `wlx_monitors` repository (files `src/state.rs` and
`src/wl_monitor.rs`).

Modelling conventions:
* Opaque Wayland `ObjectId`s are modelled as `Nat` (they are only compared and
  hashed by the program).
* Rust `i32` values are modelled as `Int`; the only arithmetic performed on
  them is `refresh / 1000`, which cannot overflow, so no wraparound modelling
  is needed.
* Rust `f64` is modelled by `F64` below: NaN, the two infinities, or a finite
  value given by its decimal representation. The program only stores scales,
  compares them against `0.0`, and Display-formats them, so this model is
  faithful for those uses.
* The `HashMap`s (`monitors`, `mode_monitor`) are modelled as association
  lists; the list order stands for the (arbitrary) iteration order of the map,
  and theorems quantify over all lists, hence over all iteration orders.
* A configuration transaction (`ZwlrOutputConfigurationV1`) is modelled as the
  list of per-head requests issued against it (`ConfigOp`), and the emitter
  channel as the list of emitted `WlMonitorEvent`s.  Proxy handles stored in
  the Rust structs (`head`, `proxy`, `current_mode`) are represented by their
  object ids.
-/

/-- Wire-protocol transform enum (`wl_output::Transform`), eight variants. -/
inductive Transform
  | normal
  | r90
  | r180
  | r270
  | flipped
  | flipped90
  | flipped180
  | flipped270
  deriving DecidableEq, Repr

/-- `WEnum<Transform>`: a decoded wire value is either a recognized enum member
or an unknown raw value outside the recognized range. -/
inductive WEnumTransform
  | value (t : Transform)
  | unknown (u : Nat)
  deriving DecidableEq, Repr

/-- `WlTransform` from `src/wl_monitor.rs`. -/
inductive WlTransform
  | normal
  | rotate90
  | rotate180
  | rotate270
  | flipped
  | flipped90
  | flipped180
  | flipped270
  deriving DecidableEq, Repr

/-- `WlTransform::from_wayland` from `src/wl_monitor.rs`: the eight recognized
wire values map to their variants, everything else falls to `Normal`. -/
def WlTransform.from_wayland : WEnumTransform → WlTransform
  | .value .normal => .normal
  | .value .r90 => .rotate90
  | .value .r180 => .rotate180
  | .value .r270 => .rotate270
  | .value .flipped => .flipped
  | .value .flipped90 => .flipped90
  | .value .flipped180 => .flipped180
  | .value .flipped270 => .flipped270
  | _ => .normal

/-- `WlTransform::to_wayland` from `src/wl_monitor.rs`. -/
def WlTransform.to_wayland : WlTransform → Transform
  | .normal => .normal
  | .rotate90 => .r90
  | .rotate180 => .r180
  | .rotate270 => .r270
  | .flipped => .flipped
  | .flipped90 => .flipped90
  | .flipped180 => .flipped180
  | .flipped270 => .flipped270

/-- Model of Rust `f64` as used by this program.  A finite value is given by
its (shortest round-trip) decimal representation `m * 10 ^ (-e)`; since the
program never does arithmetic on scales — it only stores them, compares them
with `0.0`, and Display-formats them — this decimal view is faithful. -/
inductive F64
  | nan
  | posInf
  | negInf
  | finite (m : Int) (e : Nat)
  deriving DecidableEq, Repr

/-- `f64::is_finite`. -/
def F64.isFinite : F64 → Bool
  | .finite _ _ => true
  | _ => false

/-- IEEE-754 `<=` on `f64`: false whenever either operand is NaN.  For finite
operands, `m / 10^e <= n / 10^f` iff `m * 10^f <= n * 10^e`. -/
def F64.le : F64 → F64 → Bool
  | .nan, _ => false
  | _, .nan => false
  | .negInf, _ => true
  | _, .negInf => false
  | _, .posInf => true
  | .posInf, _ => false
  | .finite m e, .finite n f => decide (m * 10 ^ f ≤ n * 10 ^ e)

/-- Decimal rendering of a finite `f64` value `m * 10 ^ (-e)`, as Rust's
`Display` prints it (e.g. `-15, 1 ↦ "-1.5"`, `1, 1 ↦ "0.1"`, `0, 0 ↦ "0"`). -/
def displayDecimal (m : Int) (e : Nat) : String :=
  if e = 0 then toString m
  else
    let digits := toString m.natAbs
    let digits :=
      if digits.length ≤ e then
        String.mk (List.replicate (e + 1 - digits.length) '0') ++ digits
      else digits
    (if m < 0 then "-" else "")
      ++ digits.take (digits.length - e) ++ "." ++ digits.drop (digits.length - e)

/-- Rust `Display` formatting of an `f64` (`format args with the value`). -/
def displayF64 : F64 → String
  | .nan => "NaN"
  | .posInf => "inf"
  | .negInf => "-inf"
  | .finite m e => displayDecimal m e

/-- `WlResolution` from `src/wl_monitor.rs` (declaration order: height, width). -/
structure WlResolution where
  height : Int
  width : Int
  deriving DecidableEq, Repr

/-- `WlPosition` from `src/wl_monitor.rs`. -/
structure WlPosition where
  x : Int
  y : Int
  deriving DecidableEq, Repr

/-- `WlMonitorMode` from `src/wl_monitor.rs`; the `proxy` handle is
represented by `mode_id` (its object id). -/
structure WlMonitorMode where
  mode_id : Nat
  head_id : Nat
  refresh_rate : Int
  resolution : WlResolution
  preferred : Bool
  is_current : Bool
  deriving DecidableEq, Repr

/-- `WlMonitor` from `src/wl_monitor.rs`; the `head` proxy is represented by
`head_id`, and `current_mode` by the mode proxy's object id. -/
structure WlMonitor where
  head_id : Nat
  name : String
  description : String
  make : String
  model : String
  serial_number : String
  modes : List WlMonitorMode
  resolution : WlResolution
  position : WlPosition
  scale : F64
  enabled : Bool
  current_mode : Option Nat
  transform : WlTransform
  changed : Bool
  last_mode : Option Nat
  deriving DecidableEq, Repr

/-- `ActionKind` from `src/state.rs`. -/
inductive ActionKind
  | toggle
  | configApply
  | switchMode
  | setScale
  | setTransform
  deriving DecidableEq, Repr

/-- `WlMonitorEvent` from `src/state.rs`. -/
inductive WlMonitorEvent
  | initialState (monitors : List WlMonitor)
  | changed (monitor : WlMonitor)
  | removed (id : Nat) (name : String)
  | actionFailed (action : ActionKind) (reason : String)
  deriving DecidableEq, Repr

/-- `ConfigResult` from `src/state.rs`. -/
inductive ConfigResult
  | idle
  | succeeded
  | failed
  | cancelled
  deriving DecidableEq, Repr

/-- One head's contribution to a configuration transaction: either
`enable_head` followed by `set_mode` (when a mode id is given),
`set_position`, `set_transform` (wire value) and `set_scale`, or
`disable_head`. -/
inductive ConfigOp
  | enable (headId : Nat) (mode : Option Nat) (pos : WlPosition)
      (transform : Transform) (scale : F64)
  | disable (headId : Nat)
  deriving DecidableEq, Repr

/-- The mutable state of `WlMonitorManager` from `src/state.rs` (the
connection, channels and bound manager proxy carry no decoded data and are
omitted; events are returned instead of being sent on the emitter). -/
structure WlMonitorManager where
  monitors : List (Nat × WlMonitor)
  mode_monitor : List (Nat × Nat)
  serial : Option Nat
  initialized : Bool
  config_result : ConfigResult
  deriving DecidableEq, Repr

/-- The state set up by `WlMonitorManager::new_connection`: empty tables, no
serial, uninitialized, `Idle` config result. -/
def initManager : WlMonitorManager :=
  { monitors := [], mode_monitor := [], serial := none,
    initialized := false, config_result := .idle }

/-- `HashMap::get` on the association-list model. -/
def lookupA {α : Type} (l : List (Nat × α)) (k : Nat) : Option α :=
  (l.find? (fun p => p.1 == k)).map Prod.snd

/-- `HashMap::insert` on the association-list model: replace the entry if the
key is present, otherwise add it. -/
def insertA {α : Type} (l : List (Nat × α)) (k : Nat) (v : α) : List (Nat × α) :=
  if l.any (fun p => p.1 == k) then l.map (fun p => if p.1 == k then (k, v) else p)
  else l ++ [(k, v)]

/-- `HashMap::get_mut` followed by a field update, on the model. -/
def updateA {α : Type} (l : List (Nat × α)) (k : Nat) (f : α → α) : List (Nat × α) :=
  l.map (fun p => if p.1 == k then (p.1, f p.2) else p)

/-- `HashMap::remove` on the model. -/
def eraseA {α : Type} (l : List (Nat × α)) (k : Nat) : List (Nat × α) :=
  l.filter (fun p => !(p.1 == k))

/-- `iter_mut().find(p)` followed by mutating the found element: update the
first element satisfying `p`, or `none` when no element does. -/
def updateFirstWith {α : Type} (p : α → Bool) (f : α → α) : List α → Option (List α)
  | [] => none
  | x :: xs =>
    if p x then some (f x :: xs)
    else (updateFirstWith p f xs).map (fun l => x :: l)

/-- Events of `zwlr_output_manager_v1` as dispatched in `src/state.rs`. -/
inductive ManagerEvent
  | head (headId : Nat)
  | done (serial : Nat)
  | otherManager
  deriving DecidableEq, Repr

/-- Events of `zwlr_output_head_v1` as dispatched in `src/state.rs`. -/
inductive HeadEvent
  | nameEv (s : String)
  | descriptionEv (s : String)
  | makeEv (s : String)
  | modelEv (s : String)
  | serialNumberEv (s : String)
  | enabledEv (v : Int)
  | currentModeEv (modeId : Nat)
  | positionEv (x y : Int)
  | scaleEv (s : F64)
  | transformEv (t : WEnumTransform)
  | modeEv (modeId : Nat)
  | finishedEv
  | otherHead
  deriving DecidableEq, Repr

/-- Events of `zwlr_output_mode_v1` as dispatched in `src/state.rs`. -/
inductive ModeEvent
  | sizeEv (width height : Int)
  | refreshEv (refresh : Int)
  | preferredEv
  | otherModeEv
  deriving DecidableEq, Repr

/-- Events of `zwlr_output_configuration_v1` as dispatched in `src/state.rs`. -/
inductive ConfigEvent
  | succeededEv
  | failedEv
  | cancelledEv
  deriving DecidableEq, Repr

/-- A protocol event routed to one of the four `Dispatch` impls of
`WlMonitorManager` in `src/state.rs`. -/
inductive ProtocolEvent
  | manager (e : ManagerEvent)
  | headE (headId : Nat) (e : HeadEvent)
  | modeE (modeId : Nat) (e : ModeEvent)
  | configE (e : ConfigEvent)
  deriving DecidableEq, Repr

/-- The field-update arms of the `zwlr_output_head_v1` dispatch (the final
`match event` in `src/state.rs`; `Finished` and `Mode` are handled before it
and are not routed here). -/
def applyHeadField (ev : HeadEvent) (m : WlMonitor) : WlMonitor :=
  match ev with
  | .nameEv s => { m with name := s }
  | .descriptionEv s => { m with description := s }
  | .makeEv s => { m with make := s }
  | .modelEv s => { m with model := s }
  | .serialNumberEv s => { m with serial_number := s }
  | .enabledEv v => { m with enabled := v != 0 }
  | .currentModeEv modeId =>
    { m with current_mode := some modeId,
             modes := m.modes.map (fun md =>
               { md with is_current := md.mode_id == modeId }) }
  | .positionEv x y => { m with position := { x := x, y := y } }
  | .scaleEv s => { m with scale := s }
  | .transformEv t => { m with transform := WlTransform.from_wayland t }
  | _ => m

/-- The default-valued `WlMonitor` inserted by the `Head` arm of the
`zwlr_output_manager_v1` dispatch in `src/state.rs`. -/
def defaultMonitor (headId : Nat) : WlMonitor :=
  { head_id := headId, name := "", description := "", make := "", model := "",
    serial_number := "", modes := [], resolution := { height := 0, width := 0 },
    position := { x := 0, y := 0 }, scale := .finite 1 0, enabled := false,
    current_mode := none, transform := .normal, changed := false,
    last_mode := none }

/-- `Dispatch<ZwlrOutputHeadV1> for WlMonitorManager` from `src/state.rs`. -/
def dispatchHead (st : WlMonitorManager) (headId : Nat) (ev : HeadEvent) :
    WlMonitorManager × List WlMonitorEvent :=
  match ev with
  | .finishedEv =>
    match lookupA st.monitors headId with
    | some monitor =>
      ({ st with monitors := eraseA st.monitors headId,
                 mode_monitor := st.mode_monitor.filter (fun p => !(p.2 == headId)) },
       [.removed monitor.head_id monitor.name])
    | none => (st, [])
  | _ =>
    match lookupA st.monitors headId with
    | none => (st, [])
    | some monitor =>
      match ev with
      | .modeEv modeId =>
        ({ st with
             mode_monitor := insertA st.mode_monitor modeId headId,
             monitors := updateA st.monitors headId (fun m =>
               { m with modes := m.modes ++
                   [{ mode_id := modeId, head_id := monitor.head_id,
                      refresh_rate := 0,
                      resolution := { height := 0, width := 0 },
                      preferred := false, is_current := false }] }) }, [])
      | _ =>
        let m₁ := applyHeadField ev monitor
        let m₂ := if st.initialized then { m₁ with changed := true } else m₁
        ({ st with monitors := updateA st.monitors headId (fun _ => m₂) }, [])

/-- The per-mode update arms of the `zwlr_output_mode_v1` dispatch in
`src/state.rs` (Rust `/` on `i32` truncates toward zero, i.e. `Int.tdiv`). -/
def applyModeEvent (ev : ModeEvent) (md : WlMonitorMode) : WlMonitorMode :=
  match ev with
  | .sizeEv w h => { md with resolution := { height := h, width := w } }
  | .refreshEv r => { md with refresh_rate := Int.tdiv r 1000 }
  | .preferredEv => { md with preferred := true }
  | .otherModeEv => md

/-- `Dispatch<ZwlrOutputModeV1> for WlMonitorManager` from `src/state.rs`:
route through the reverse lookup, find the mode entry, update it. -/
def dispatchMode (st : WlMonitorManager) (modeId : Nat) (ev : ModeEvent) :
    WlMonitorManager × List WlMonitorEvent :=
  match lookupA st.mode_monitor modeId with
  | none => (st, [])
  | some monitorId =>
    match lookupA st.monitors monitorId with
    | none => (st, [])
    | some monitor =>
      match updateFirstWith (fun md => md.mode_id == modeId) (applyModeEvent ev)
          monitor.modes with
      | none => (st, [])
      | some newModes =>
        let table := updateA st.monitors monitorId (fun m => { m with modes := newModes })
        ({ st with monitors := table }, [])

/-- The four `Dispatch` impls of `WlMonitorManager` in `src/state.rs`, as one
step function: a protocol event maps the state to a new state plus the list of
events sent on the emitter channel. -/
def dispatch (st : WlMonitorManager) (ev : ProtocolEvent) :
    WlMonitorManager × List WlMonitorEvent :=
  match ev with
  | .manager (.head headId) =>
    ({ st with monitors := insertA st.monitors headId (defaultMonitor headId) }, [])
  | .manager (.done s) =>
    if st.initialized then ({ st with serial := some s }, [])
    else
      ({ st with serial := some s, initialized := true },
       [.initialState (st.monitors.map Prod.snd)])
  | .manager .otherManager => (st, [])
  | .headE headId hev => dispatchHead st headId hev
  | .modeE modeId mev => dispatchMode st modeId mev
  | .configE .succeededEv => ({ st with config_result := .succeeded }, [])
  | .configE .failedEv => ({ st with config_result := .failed }, [])
  | .configE .cancelledEv => ({ st with config_result := .cancelled }, [])

/-- Process a sequence of protocol events, accumulating emitted events. -/
def runTrace (st : WlMonitorManager) :
    List ProtocolEvent → WlMonitorManager × List WlMonitorEvent
  | [] => (st, [])
  | e :: rest =>
    let r := dispatch st e
    let r' := runTrace r.1 rest
    (r'.1, r.2 ++ r'.2)

/-- The per-monitor loop body of `flush_changed` in `src/state.rs`, iterated
over the monitor table: a dirty monitor gets its flag cleared and a `Changed`
snapshot emitted; clean monitors are left alone. -/
def flushLoop : List (Nat × WlMonitor) → List (Nat × WlMonitor) × List WlMonitorEvent
  | [] => ([], [])
  | (k, m) :: rest =>
    let r := flushLoop rest
    if m.changed then
      ((k, { m with changed := false }) :: r.1,
       .changed { m with changed := false } :: r.2)
    else ((k, m) :: r.1, r.2)

/-- `WlMonitorManager::flush_changed` from `src/state.rs`. -/
def flush_changed (st : WlMonitorManager) :
    WlMonitorManager × List WlMonitorEvent :=
  if st.initialized then
    ({ st with monitors := (flushLoop st.monitors).1 }, (flushLoop st.monitors).2)
  else (st, [])

/-- `WlMonitorManager::preserve_head` from `src/state.rs`. -/
def preserve_head (m : WlMonitor) : ConfigOp :=
  if m.enabled then
    .enable m.head_id m.current_mode m.position m.transform.to_wayland m.scale
  else .disable m.head_id

/-- A `for monitor in self.monitors.values()` loop whose body contributes some
transaction requests and some emitted events per monitor, in iteration order. -/
def stepAll {α β γ : Type} (f : α → List β × List γ) : List α → List β × List γ
  | [] => ([], [])
  | x :: xs =>
    let r := stepAll f xs
    ((f x).1 ++ r.1, (f x).2 ++ r.2)

/-- The exact width/height/refresh match used by `configure_toggle` and
`configure_switch_mode` in `src/state.rs`. -/
def findMode (m : WlMonitor) (width height refresh_rate : Int) :
    Option WlMonitorMode :=
  m.modes.find? (fun md =>
    md.resolution.width == width && md.resolution.height == height
      && md.refresh_rate == refresh_rate)

/-- The mode-resolution chain of `configure_toggle` in `src/state.rs` for a
disabled target: if an explicit triple was supplied, look it up exactly
(ignoring the remembered last mode); otherwise look up the remembered last
mode by id; then fall back to the preferred mode, then to the first mode. -/
def toggle_resolve (m : WlMonitor) (mode : Option (Int × Int × Int)) :
    Option WlMonitorMode :=
  let primary : Option WlMonitorMode :=
    match mode with
    | some (w, h, r) => findMode m w h r
    | none =>
      match m.last_mode with
      | some lm => m.modes.find? (fun md => md.mode_id == lm)
      | none => none
  (primary.orElse (fun _ => m.modes.find? (fun md => md.preferred))).orElse
    (fun _ => m.modes.head?)

/-- The loop body of `configure_toggle` in `src/state.rs`. -/
def toggle_step (name : String) (target_enabled : Bool)
    (mode : Option (Int × Int × Int)) (m : WlMonitor) :
    List ConfigOp × List WlMonitorEvent :=
  if m.name != name then ([preserve_head m], [])
  else if target_enabled then ([.disable m.head_id], [])
  else
    match toggle_resolve m mode with
    | some md =>
      ([.enable m.head_id (some md.mode_id) m.position m.transform.to_wayland
          m.scale], [])
    | none =>
      ([], [.actionFailed .toggle
        ("No valid mode available for monitor '" ++ name ++ "'")])

/-- `WlMonitorManager::configure_toggle` from `src/state.rs`.  Returns the
monitor table after the `last_mode` bookkeeping, the transaction requests, and
the emitted events. -/
def configure_toggle (monitors : List WlMonitor) (name : String)
    (mode : Option (Int × Int × Int)) :
    List WlMonitor × (List ConfigOp × List WlMonitorEvent) :=
  let target_enabled :=
    ((monitors.find? (fun m => m.name == name)).map (fun m => m.enabled)).getD false
  let monitors' :=
    if target_enabled then
      match updateFirstWith (fun m => m.name == name)
          (fun m =>
            match m.current_mode with
            | some cm => { m with last_mode := some cm }
            | none => m) monitors with
      | some l => l
      | none => monitors
    else monitors
  (monitors', stepAll (toggle_step name target_enabled mode) monitors')

/-- The loop body of `configure_switch_mode` in `src/state.rs`. -/
def switch_mode_step (name : String) (width height refresh_rate : Int)
    (m : WlMonitor) : List ConfigOp × List WlMonitorEvent :=
  if m.name != name then ([preserve_head m], [])
  else
    match findMode m width height refresh_rate with
    | some md =>
      ([.enable m.head_id (some md.mode_id) m.position m.transform.to_wayland
          m.scale], [])
    | none =>
      ([preserve_head m],
       [.actionFailed .switchMode
         ("No matching mode " ++ toString width ++ "x" ++ toString height
           ++ "@" ++ toString refresh_rate ++ "Hz for monitor '" ++ name ++ "'")])

/-- `WlMonitorManager::configure_switch_mode` from `src/state.rs`. -/
def configure_switch_mode (monitors : List WlMonitor) (name : String)
    (width height refresh_rate : Int) : List ConfigOp × List WlMonitorEvent :=
  stepAll (switch_mode_step name width height refresh_rate) monitors

/-- The validity check of `configure_set_scale` in `src/state.rs`:
`!scale.is_finite() || scale <= 0.0`. -/
def scaleInvalid (scale : F64) : Bool :=
  !scale.isFinite || scale.le (.finite 0 0)

/-- The loop body of `configure_set_scale` (valid-scale path) in
`src/state.rs`. -/
def set_scale_step (name : String) (scale : F64) (m : WlMonitor) :
    List ConfigOp × List WlMonitorEvent :=
  if m.name != name then ([preserve_head m], [])
  else if !m.enabled then
    ([preserve_head m],
     [.actionFailed .setScale
       ("Monitor '" ++ name ++ "' is disabled, cannot set scale")])
  else ([.enable m.head_id m.current_mode m.position m.transform.to_wayland scale], [])

/-- `WlMonitorManager::configure_set_scale` from `src/state.rs`. -/
def configure_set_scale (monitors : List WlMonitor) (name : String)
    (scale : F64) : List ConfigOp × List WlMonitorEvent :=
  if scaleInvalid scale then
    let r := stepAll (fun m => ([preserve_head m], [])) monitors
    (r.1,
     .actionFailed .setScale
       ("Invalid scale value '" ++ displayF64 scale
         ++ "': must be finite and > 0") :: r.2)
  else stepAll (set_scale_step name scale) monitors

/-- The loop body of `configure_set_transform` in `src/state.rs`. -/
def set_transform_step (name : String) (t : WlTransform) (m : WlMonitor) :
    List ConfigOp × List WlMonitorEvent :=
  if m.name != name then ([preserve_head m], [])
  else if !m.enabled then
    ([preserve_head m],
     [.actionFailed .setTransform
       ("Monitor '" ++ name ++ "' is disabled, cannot set transform")])
  else ([.enable m.head_id m.current_mode m.position t.to_wayland m.scale], [])

/-- `WlMonitorManager::configure_set_transform` from `src/state.rs`. -/
def configure_set_transform (monitors : List WlMonitor) (name : String)
    (t : WlTransform) : List ConfigOp × List WlMonitorEvent :=
  stepAll (set_transform_step name t) monitors

/-! ## Helper lemmas -/

theorem stepAll_append {α β γ : Type} (f : α → List β × List γ) (l₁ l₂ : List α) :
    stepAll f (l₁ ++ l₂) =
      ((stepAll f l₁).1 ++ (stepAll f l₂).1, (stepAll f l₁).2 ++ (stepAll f l₂).2) := by
  induction l₁ with
  | nil => simp [stepAll]
  | cons x xs ih => simp [stepAll, ih, List.append_assoc]

theorem stepAll_of_pointwise {α β γ : Type} (f : α → List β × List γ) (g : α → β)
    (l : List α) (h : ∀ x ∈ l, f x = ([g x], [])) : stepAll f l = (l.map g, []) := by
  induction l with
  | nil => simp [stepAll]
  | cons x xs ih =>
    have hx := h x (by simp)
    have ih' := ih (fun y hy => h y (by simp [hy]))
    simp [stepAll, hx, ih']

theorem toggle_step_other (name : String) (te : Bool) (mode : Option (Int × Int × Int))
    (m : WlMonitor) (h : m.name ≠ name) :
    toggle_step name te mode m = ([preserve_head m], []) := by
  simp [toggle_step, h]

theorem switch_mode_step_other (name : String) (w hh r : Int) (m : WlMonitor)
    (h : m.name ≠ name) : switch_mode_step name w hh r m = ([preserve_head m], []) := by
  simp [switch_mode_step, h]

theorem set_scale_step_other (name : String) (sc : F64) (m : WlMonitor)
    (h : m.name ≠ name) : set_scale_step name sc m = ([preserve_head m], []) := by
  simp [set_scale_step, h]

theorem set_transform_step_other (name : String) (t : WlTransform) (m : WlMonitor)
    (h : m.name ≠ name) : set_transform_step name t m = ([preserve_head m], []) := by
  simp [set_transform_step, h]

theorem find?_name_none (l : List WlMonitor) (name : String)
    (h : ∀ x ∈ l, x.name ≠ name) : l.find? (fun m => m.name == name) = none := by
  rw [List.find?_eq_none]
  intro x hx
  simp [h x hx]

theorem flushLoop_eq (l : List (Nat × WlMonitor)) :
    flushLoop l =
      (l.map (fun p => (p.1, { p.2 with changed := false })),
       (l.filter (fun p => p.2.changed)).map
         (fun p => .changed { p.2 with changed := false })) := by
  induction l with
  | nil => simp [flushLoop]
  | cons hd tl ih =>
    obtain ⟨k, m⟩ := hd
    cases hc : m.changed with
    | true => simp [flushLoop, hc, ih]
    | false =>
      have hm : { m with changed := false } = m := by
        cases m
        simp_all
      simp [flushLoop, hc, ih, hm]

/-! ## Claim theorems -/

/-- C6: for every wire refresh value `r` (thousandths of Hz), the `Refresh`
arm stores `r` integer-divided by 1000, truncating toward zero; in particular
59950 maps to 59 and 60000 maps to 60, also through the full
`zwlr_output_mode_v1` dispatch path. -/
theorem c6_refresh_truncating_division :
    (∀ (r : Int) (md : WlMonitorMode),
        applyModeEvent (.refreshEv r) md = { md with refresh_rate := Int.tdiv r 1000 })
    ∧ (∀ md : WlMonitorMode,
        (applyModeEvent (.refreshEv 59950) md).refresh_rate = 59)
    ∧ (∀ md : WlMonitorMode,
        (applyModeEvent (.refreshEv 60000) md).refresh_rate = 60)
    ∧ lookupA
        (dispatch
          { initManager with
              monitors := [(1, { defaultMonitor 1 with modes :=
                [{ mode_id := 5, head_id := 1, refresh_rate := 0,
                   resolution := { height := 0, width := 0 },
                   preferred := false, is_current := false }] })],
              mode_monitor := [(5, 1)] }
          (.modeE 5 (.refreshEv 59950))).1.monitors 1 =
        some { defaultMonitor 1 with modes :=
          [{ mode_id := 5, head_id := 1, refresh_rate := 59,
             resolution := { height := 0, width := 0 },
             preferred := false, is_current := false }] } := by
  refine ⟨fun r md => rfl, fun md => rfl, fun md => rfl, by decide⟩

/-- C7: converting each of the eight transform variants to its wire value and
back returns the original variant, and every unrecognized wire value decodes
to `Normal`. -/
theorem c7_transform_roundtrip :
    (∀ t : WlTransform, WlTransform.from_wayland (.value t.to_wayland) = t)
    ∧ (∀ u : Nat, WlTransform.from_wayland (.unknown u) = .normal) := by
  constructor
  · intro t
    cases t <;> rfl
  · intro u
    rfl

/-- C8: before initialization the dirty flush emits nothing and leaves the
state unchanged; once initialized, it clears every dirty flag and emits
exactly one `Changed` event per dirty monitor — a snapshot copy of that
monitor (flag already cleared) — so a monitor yields at most one `Changed`
event per tick no matter how many of its fields changed. -/
theorem c8_dirty_flush_coalescing (st : WlMonitorManager) :
    flush_changed st =
      if st.initialized then
        ({ st with monitors := st.monitors.map (fun p => (p.1, { p.2 with changed := false })) },
         (st.monitors.filter (fun p => p.2.changed)).map
           (fun p => .changed { p.2 with changed := false }))
      else (st, []) := by
  cases hi : st.initialized with
  | true => simp [flush_changed, hi, flushLoop_eq]
  | false => simp [flush_changed, hi]

/-- C4: a `SetScale` action whose scale is not finite or not greater than 0
(NaN, the infinities, zero and every non-positive finite value all satisfy the
check) emits exactly one `ActionFailed{SetScale}` event with the reason
naming the formatted scale, and the built transaction preserves every monitor
— including the target — at its current observable state. -/
theorem c4_set_scale_invalid (monitors : List WlMonitor) (name : String)
    (scale : F64) (h : scaleInvalid scale = true) :
    configure_set_scale monitors name scale =
      (monitors.map preserve_head,
       [.actionFailed .setScale
         ("Invalid scale value '" ++ displayF64 scale
           ++ "': must be finite and > 0")])
    ∧ scaleInvalid .nan = true
    ∧ scaleInvalid .posInf = true
    ∧ scaleInvalid .negInf = true
    ∧ scaleInvalid (.finite 0 0) = true
    ∧ (∀ (m : Int) (e : Nat), m ≤ 0 → scaleInvalid (.finite m e) = true) := by
  refine ⟨?_, by decide, by decide, by decide, by decide, ?_⟩
  · have hall := stepAll_of_pointwise
      (fun m : WlMonitor => (([preserve_head m] : List ConfigOp), ([] : List WlMonitorEvent)))
      preserve_head monitors (fun x _ => rfl)
    simp [configure_set_scale, h, hall]
  · intro m e hm
    simp [scaleInvalid, F64.isFinite, F64.le]
    exact hm

/-- Witness for C4 at a concrete input: scale 0 on a one-monitor table. -/
theorem c4_set_scale_invalid_witness :
    scaleInvalid (.finite 0 0) = true ∧
    configure_set_scale [defaultMonitor 10] "DP-1" (.finite 0 0) =
      ([defaultMonitor 10].map preserve_head,
       [.actionFailed .setScale "Invalid scale value '0': must be finite and > 0"]) :=
  ⟨by decide,
   (c4_set_scale_invalid [defaultMonitor 10] "DP-1" (.finite 0 0) (by decide)).1⟩

/-- Concrete mode 1920x1080@60, preferred and current, for witnesses. -/
def modeA : WlMonitorMode :=
  { mode_id := 1, head_id := 10, refresh_rate := 60,
    resolution := { height := 1080, width := 1920 },
    preferred := true, is_current := true }

/-- Concrete mode 2560x1440@75 for witnesses. -/
def modeB : WlMonitorMode :=
  { mode_id := 2, head_id := 10, refresh_rate := 75,
    resolution := { height := 1440, width := 2560 },
    preferred := false, is_current := false }

/-- Concrete enabled monitor "DP-1" with modes `[modeA, modeB]`. -/
def dp1Ex : WlMonitor :=
  { defaultMonitor 10 with
      name := "DP-1", modes := [modeA, modeB],
      enabled := true, current_mode := some 1 }

/-- Concrete mode 1920x1080@60 owned by head 20, preferred, for witnesses. -/
def modeC : WlMonitorMode :=
  { mode_id := 3, head_id := 20, refresh_rate := 60,
    resolution := { height := 1080, width := 1920 },
    preferred := true, is_current := false }

/-- Concrete disabled monitor "HDMI-A-1" with one preferred mode. -/
def hdmiEx : WlMonitor :=
  { defaultMonitor 20 with name := "HDMI-A-1", modes := [modeC] }

/-- C3: a `SwitchMode` whose triple exactly matches a catalog entry enables
the target at that mode with its current position, transform and scale; a
triple with no exact match preserves the target unchanged and emits exactly
one `ActionFailed{SwitchMode}` with the formatted reason; non-targeted
monitors are preserved in both cases. -/
theorem c3_switch_mode_exact_or_preserve (pre post : List WlMonitor)
    (m : WlMonitor) (name : String) (w hh r : Int) (hname : m.name = name)
    (hpre : ∀ x ∈ pre, x.name ≠ name) (hpost : ∀ x ∈ post, x.name ≠ name) :
    configure_switch_mode (pre ++ m :: post) name w hh r =
      match findMode m w hh r with
      | some md =>
        (pre.map preserve_head
           ++ .enable m.head_id (some md.mode_id) m.position
                m.transform.to_wayland m.scale
           :: post.map preserve_head, [])
      | none =>
        (pre.map preserve_head ++ preserve_head m :: post.map preserve_head,
         [.actionFailed .switchMode
           ("No matching mode " ++ toString w ++ "x" ++ toString hh ++ "@"
             ++ toString r ++ "Hz for monitor '" ++ name ++ "'")]) := by
  subst hname
  have hp := stepAll_of_pointwise (switch_mode_step m.name w hh r) preserve_head pre
    (fun x hx => switch_mode_step_other _ _ _ _ _ (hpre x hx))
  have hq := stepAll_of_pointwise (switch_mode_step m.name w hh r) preserve_head post
    (fun x hx => switch_mode_step_other _ _ _ _ _ (hpost x hx))
  cases hfm : findMode m w hh r with
  | some md =>
    simp [configure_switch_mode, stepAll_append, stepAll, hp, hq,
      switch_mode_step, hfm]
  | none =>
    simp [configure_switch_mode, stepAll_append, stepAll, hp, hq,
      switch_mode_step, hfm]

/-- Witness for C3 at the spec's concrete scenario: requesting 1920x1080@75 on
"DP-1" whose catalog holds 1920x1080@60 and 2560x1440@75 fails and preserves
every monitor. -/
theorem c3_switch_mode_witness :
    dp1Ex.name = "DP-1" ∧ (∀ x ∈ [hdmiEx], x.name ≠ "DP-1") ∧
    configure_switch_mode ([] ++ dp1Ex :: [hdmiEx]) "DP-1" 1920 1080 75 =
      match findMode dp1Ex 1920 1080 75 with
      | some md =>
        (([] : List WlMonitor).map preserve_head
           ++ .enable dp1Ex.head_id (some md.mode_id) dp1Ex.position
                dp1Ex.transform.to_wayland dp1Ex.scale
           :: [hdmiEx].map preserve_head, [])
      | none =>
        (([] : List WlMonitor).map preserve_head
           ++ preserve_head dp1Ex :: [hdmiEx].map preserve_head,
         [.actionFailed .switchMode
           ("No matching mode " ++ toString (1920 : Int) ++ "x"
             ++ toString (1080 : Int) ++ "@" ++ toString (75 : Int)
             ++ "Hz for monitor '" ++ "DP-1" ++ "'")]) :=
  ⟨by decide, by decide,
   c3_switch_mode_exact_or_preserve [] [hdmiEx] dp1Ex "DP-1" 1920 1080 75
     (by decide) (by decide) (by decide)⟩

/-- C5: a valid-scale `SetScale` and a `SetTransform` that target a disabled
monitor preserve the target unchanged in the transaction and emit exactly one
`ActionFailed` event (`SetScale` resp. `SetTransform`) whose reason names the
target monitor. -/
theorem c5_disabled_target_fails (pre post : List WlMonitor) (m : WlMonitor)
    (name : String) (scale : F64) (t : WlTransform) (hname : m.name = name)
    (hpre : ∀ x ∈ pre, x.name ≠ name) (hpost : ∀ x ∈ post, x.name ≠ name)
    (hval : scaleInvalid scale = false) (hdis : m.enabled = false) :
    configure_set_scale (pre ++ m :: post) name scale =
      (pre.map preserve_head ++ preserve_head m :: post.map preserve_head,
       [.actionFailed .setScale
         ("Monitor '" ++ name ++ "' is disabled, cannot set scale")])
    ∧ configure_set_transform (pre ++ m :: post) name t =
      (pre.map preserve_head ++ preserve_head m :: post.map preserve_head,
       [.actionFailed .setTransform
         ("Monitor '" ++ name ++ "' is disabled, cannot set transform")]) := by
  subst hname
  constructor
  · have hp := stepAll_of_pointwise (set_scale_step m.name scale) preserve_head pre
      (fun x hx => set_scale_step_other _ _ _ (hpre x hx))
    have hq := stepAll_of_pointwise (set_scale_step m.name scale) preserve_head post
      (fun x hx => set_scale_step_other _ _ _ (hpost x hx))
    simp [configure_set_scale, hval, stepAll_append, stepAll, hp, hq,
      set_scale_step, hdis]
  · have hp := stepAll_of_pointwise (set_transform_step m.name t) preserve_head pre
      (fun x hx => set_transform_step_other _ _ _ (hpre x hx))
    have hq := stepAll_of_pointwise (set_transform_step m.name t) preserve_head post
      (fun x hx => set_transform_step_other _ _ _ (hpost x hx))
    simp [configure_set_transform, stepAll_append, stepAll, hp, hq,
      set_transform_step, hdis]

/-- Witness for C5 at a concrete input: scale 1.5 / rotate90 aimed at the
disabled "HDMI-A-1" with "DP-1" as bystander. -/
theorem c5_disabled_target_fails_witness :
    hdmiEx.name = "HDMI-A-1" ∧ scaleInvalid (.finite 15 1) = false ∧
    hdmiEx.enabled = false ∧
    configure_set_scale ([dp1Ex] ++ hdmiEx :: []) "HDMI-A-1" (.finite 15 1) =
      ([dp1Ex].map preserve_head ++ preserve_head hdmiEx :: ([] : List WlMonitor).map preserve_head,
       [.actionFailed .setScale
         ("Monitor '" ++ "HDMI-A-1" ++ "' is disabled, cannot set scale")])
    ∧ configure_set_transform ([dp1Ex] ++ hdmiEx :: []) "HDMI-A-1" .rotate90 =
      ([dp1Ex].map preserve_head ++ preserve_head hdmiEx :: ([] : List WlMonitor).map preserve_head,
       [.actionFailed .setTransform
         ("Monitor '" ++ "HDMI-A-1" ++ "' is disabled, cannot set transform")]) :=
  ⟨by decide, by decide, by decide,
   c5_disabled_target_fails [dp1Ex] [] hdmiEx "HDMI-A-1" (.finite 15 1) .rotate90
     (by decide) (by decide) (by decide) (by decide) (by decide)⟩

/-- C9: an action (Toggle, SwitchMode, valid-scale SetScale, SetTransform)
whose target name matches no monitor builds a transaction preserving every
known monitor at its current observable state and emits no event at all — a
silent no-op at the public interface. -/
theorem c9_unknown_target_silent (monitors : List WlMonitor) (name : String)
    (mode : Option (Int × Int × Int)) (w hh r : Int) (scale : F64)
    (t : WlTransform) (hall : ∀ x ∈ monitors, x.name ≠ name)
    (hval : scaleInvalid scale = false) :
    configure_toggle monitors name mode = (monitors, (monitors.map preserve_head, []))
    ∧ configure_switch_mode monitors name w hh r = (monitors.map preserve_head, [])
    ∧ configure_set_scale monitors name scale = (monitors.map preserve_head, [])
    ∧ configure_set_transform monitors name t = (monitors.map preserve_head, []) := by
  have hfind := find?_name_none monitors name hall
  refine ⟨?_, ?_, ?_, ?_⟩
  · have hp := stepAll_of_pointwise (toggle_step name false mode) preserve_head monitors
      (fun x hx => toggle_step_other _ _ _ _ (hall x hx))
    simp [configure_toggle, hfind, hp]
  · have hp := stepAll_of_pointwise (switch_mode_step name w hh r) preserve_head monitors
      (fun x hx => switch_mode_step_other _ _ _ _ _ (hall x hx))
    simp [configure_switch_mode, hp]
  · have hp := stepAll_of_pointwise (set_scale_step name scale) preserve_head monitors
      (fun x hx => set_scale_step_other _ _ _ (hall x hx))
    simp [configure_set_scale, hval, hp]
  · have hp := stepAll_of_pointwise (set_transform_step name t) preserve_head monitors
      (fun x hx => set_transform_step_other _ _ _ (hall x hx))
    simp [configure_set_transform, hp]

/-- Witness for C9 at a concrete input: actions aimed at the unknown name
"DP-3" over the table `[dp1Ex, hdmiEx]`. -/
theorem c9_unknown_target_silent_witness :
    (∀ x ∈ [dp1Ex, hdmiEx], x.name ≠ "DP-3") ∧ scaleInvalid (.finite 2 0) = false ∧
    (configure_toggle [dp1Ex, hdmiEx] "DP-3" none =
        ([dp1Ex, hdmiEx], ([dp1Ex, hdmiEx].map preserve_head, []))
      ∧ configure_switch_mode [dp1Ex, hdmiEx] "DP-3" 1920 1080 60 =
        ([dp1Ex, hdmiEx].map preserve_head, [])
      ∧ configure_set_scale [dp1Ex, hdmiEx] "DP-3" (.finite 2 0) =
        ([dp1Ex, hdmiEx].map preserve_head, [])
      ∧ configure_set_transform [dp1Ex, hdmiEx] "DP-3" .flipped =
        ([dp1Ex, hdmiEx].map preserve_head, [])) :=
  ⟨by decide, by decide,
   c9_unknown_target_silent [dp1Ex, hdmiEx] "DP-3" none 1920 1080 60
     (.finite 2 0) .flipped (by decide) (by decide)⟩

theorem find?_append_first {α : Type} (pre post : List α) (m : α) (p : α → Bool)
    (hpre : ∀ x ∈ pre, p x = false) (hm : p m = true) :
    (pre ++ m :: post).find? p = some m := by
  induction pre with
  | nil => simp [List.find?_cons_of_pos, hm]
  | cons x xs ih =>
    rw [List.cons_append, List.find?_cons_of_neg _ (by simp [hpre x (by simp)])]
    exact ih (fun y hy => hpre y (by simp [hy]))

/-- Concrete non-preferred mode 1920x1080@60 (id 1) for the C1 counterexample. -/
def modeN1 : WlMonitorMode :=
  { mode_id := 1, head_id := 10, refresh_rate := 60,
    resolution := { height := 1080, width := 1920 },
    preferred := false, is_current := false }

/-- Concrete non-preferred mode 2560x1440@75 (id 2) for the C1 counterexample. -/
def modeN2 : WlMonitorMode :=
  { mode_id := 2, head_id := 10, refresh_rate := 75,
    resolution := { height := 1440, width := 2560 },
    preferred := false, is_current := false }

/-- Concrete disabled monitor whose remembered last mode (id 2) is still in
its catalog, for the C1 counterexample. -/
def dp1Last : WlMonitor :=
  { defaultMonitor 10 with
      name := "DP-1", modes := [modeN1, modeN2], last_mode := some 2 }

/-- Counterexample to C1 as stated: toggling the disabled "DP-1" with the
explicit triple 1024x768@30, which matches no catalog entry, while the
remembered last mode (id 2) is still present in the catalog, activates mode
id 1 (the first catalog mode) — not the remembered last mode id 2 that the
claim requires. -/
theorem c1_toggle_counterexample :
    dp1Last.enabled = false
    ∧ dp1Last.last_mode = some 2
    ∧ (dp1Last.modes.find? (fun md => md.mode_id == 2)).isSome = true
    ∧ findMode dp1Last 1024 768 30 = none
    ∧ (configure_toggle [dp1Last] "DP-1" (some (1024, 768, 30))).2.1 =
        [.enable 10 (some 1) { x := 0, y := 0 } .normal (.finite 1 0)]
    ∧ (configure_toggle [dp1Last] "DP-1" (some (1024, 768, 30))).2.1 ≠
        [.enable 10 (some 2) { x := 0, y := 0 } .normal (.finite 1 0)] := by
  decide

/-- C1 (amended): toggling a currently disabled monitor resolves the mode to
activate as follows — (a) when an explicit width/height/refresh triple is
supplied, an exact catalog match for it; if the explicit triple matches no
catalog entry, the remembered last mode is skipped and resolution falls
directly to (c)/(d); (b) when no explicit triple is supplied, the remembered
last mode if still present in the catalog; else (c) the mode flagged
preferred, else (d) the first mode in catalog order.  The resolved mode is
activated at the monitor's current position/transform/scale; with an empty
catalog no request is issued for the target and one
`ActionFailed{Toggle}` is emitted; non-targeted monitors are preserved. -/
theorem c1_toggle_disabled_resolution (pre post : List WlMonitor)
    (m : WlMonitor) (name : String) (mode : Option (Int × Int × Int))
    (hname : m.name = name) (hpre : ∀ x ∈ pre, x.name ≠ name)
    (hpost : ∀ x ∈ post, x.name ≠ name) (hdis : m.enabled = false) :
    configure_toggle (pre ++ m :: post) name mode =
      (pre ++ m :: post,
       (pre.map preserve_head
          ++ (match toggle_resolve m mode with
              | some md =>
                [ConfigOp.enable m.head_id (some md.mode_id) m.position
                   m.transform.to_wayland m.scale]
              | none => [])
          ++ post.map preserve_head,
        match toggle_resolve m mode with
        | some _ => []
        | none =>
          [.actionFailed .toggle
            ("No valid mode available for monitor '" ++ name ++ "'")]))
    ∧ (∀ w hh r md, mode = some (w, hh, r) → findMode m w hh r = some md →
        toggle_resolve m mode = some md)
    ∧ (∀ lm md, mode = none → m.last_mode = some lm →
        m.modes.find? (fun x => x.mode_id == lm) = some md →
        toggle_resolve m mode = some md)
    ∧ (∀ w hh r, mode = some (w, hh, r) → findMode m w hh r = none →
        toggle_resolve m mode =
          (m.modes.find? (fun md => md.preferred)).orElse
            (fun _ => m.modes.head?)) := by
  subst hname
  have hfind : (pre ++ m :: post).find? (fun x => x.name == m.name) = some m :=
    find?_append_first pre post m _
      (fun x hx => by simp [hpre x hx]) (by simp)
  refine ⟨?_, ?_, ?_, ?_⟩
  · have hp := stepAll_of_pointwise (toggle_step m.name false mode) preserve_head pre
      (fun x hx => toggle_step_other _ _ _ _ (hpre x hx))
    have hq := stepAll_of_pointwise (toggle_step m.name false mode) preserve_head post
      (fun x hx => toggle_step_other _ _ _ _ (hpost x hx))
    cases hres : toggle_resolve m mode with
    | some md =>
      simp [configure_toggle, hfind, hdis, stepAll_append, stepAll, hp, hq,
        toggle_step, hres]
    | none =>
      simp [configure_toggle, hfind, hdis, stepAll_append, stepAll, hp, hq,
        toggle_step, hres]
  · rintro w hh r md rfl hf
    simp [toggle_resolve, hf, Option.orElse]
  · rintro lm md rfl hlm hf
    simp [toggle_resolve, hlm, hf, Option.orElse]
  · rintro w hh r rfl hf
    simp [toggle_resolve, hf, Option.orElse]

/-- Witness for the amended C1 at a concrete input: toggling the disabled
"HDMI-A-1" with no explicit triple and no remembered last mode enables it at
its preferred mode while preserving nothing else (singleton table). -/
theorem c1_toggle_disabled_resolution_witness :
    hdmiEx.name = "HDMI-A-1" ∧ hdmiEx.enabled = false ∧
    (configure_toggle ([] ++ hdmiEx :: []) "HDMI-A-1" none =
      ([] ++ hdmiEx :: [],
       (([] : List WlMonitor).map preserve_head
          ++ (match toggle_resolve hdmiEx none with
              | some md =>
                [ConfigOp.enable hdmiEx.head_id (some md.mode_id) hdmiEx.position
                   hdmiEx.transform.to_wayland hdmiEx.scale]
              | none => [])
          ++ ([] : List WlMonitor).map preserve_head,
        match toggle_resolve hdmiEx none with
        | some _ => []
        | none =>
          [.actionFailed .toggle
            ("No valid mode available for monitor '" ++ "HDMI-A-1" ++ "'")]))
     ∧ (∀ w hh r md, (none : Option (Int × Int × Int)) = some (w, hh, r) →
         findMode hdmiEx w hh r = some md → toggle_resolve hdmiEx none = some md)
     ∧ (∀ lm md, (none : Option (Int × Int × Int)) = none →
         hdmiEx.last_mode = some lm →
         hdmiEx.modes.find? (fun x => x.mode_id == lm) = some md →
         toggle_resolve hdmiEx none = some md)
     ∧ (∀ w hh r, (none : Option (Int × Int × Int)) = some (w, hh, r) →
         findMode hdmiEx w hh r = none →
         toggle_resolve hdmiEx none =
           (hdmiEx.modes.find? (fun md => md.preferred)).orElse
             (fun _ => hdmiEx.modes.head?))) :=
  ⟨by decide, by decide,
   c1_toggle_disabled_resolution [] [] hdmiEx "HDMI-A-1" none (by decide)
     (by simp) (by simp) (by decide)⟩

/-- True exactly for the `Done` event of the output manager. -/
def isDoneEv : ProtocolEvent → Bool
  | .manager (.done _) => true
  | _ => false

/-- True exactly for an `InitialState` emission. -/
def isInitEv : WlMonitorEvent → Bool
  | .initialState _ => true
  | _ => false

/-- Number of `InitialState` events in an emission list. -/
def countInit (evs : List WlMonitorEvent) : Nat := evs.countP isInitEv

theorem dispatchHead_initialized (st : WlMonitorManager) (headId : Nat)
    (ev : HeadEvent) : (dispatchHead st headId ev).1.initialized = st.initialized := by
  cases ev <;> simp only [dispatchHead] <;>
    cases lookupA st.monitors headId <;> simp

theorem dispatchHead_countInit (st : WlMonitorManager) (headId : Nat)
    (ev : HeadEvent) : countInit (dispatchHead st headId ev).2 = 0 := by
  cases ev <;> simp only [dispatchHead] <;>
    cases lookupA st.monitors headId <;> simp [countInit, isInitEv]

theorem dispatchMode_pure (st : WlMonitorManager) (modeId : Nat)
    (ev : ModeEvent) :
    (dispatchMode st modeId ev).1.initialized = st.initialized
      ∧ (dispatchMode st modeId ev).2 = [] := by
  refine ⟨?_, ?_⟩ <;>
    · unfold dispatchMode
      repeat' split
      all_goals rfl

theorem dispatch_initialized (st : WlMonitorManager) (ev : ProtocolEvent) :
    (dispatch st ev).1.initialized = (st.initialized || isDoneEv ev) := by
  cases ev with
  | manager me =>
    cases me with
    | head headId => simp [dispatch, isDoneEv]
    | done s =>
      cases hi : st.initialized <;> simp [dispatch, hi, isDoneEv]
    | otherManager => simp [dispatch, isDoneEv]
  | headE headId hev => simp [dispatch, isDoneEv, dispatchHead_initialized]
  | modeE modeId mev => simp [dispatch, isDoneEv, (dispatchMode_pure st modeId mev).1]
  | configE ce => cases ce <;> simp [dispatch, isDoneEv]

theorem dispatch_countInit (st : WlMonitorManager) (ev : ProtocolEvent) :
    countInit (dispatch st ev).2 =
      if isDoneEv ev && !st.initialized then 1 else 0 := by
  cases ev with
  | manager me =>
    cases me with
    | head headId => simp [dispatch, isDoneEv, countInit]
    | done s =>
      cases hi : st.initialized <;>
        simp [dispatch, hi, isDoneEv, countInit, isInitEv]
    | otherManager => simp [dispatch, isDoneEv, countInit]
  | headE headId hev => simp [dispatch, isDoneEv, dispatchHead_countInit]
  | modeE modeId mev => simp [dispatch, isDoneEv, (dispatchMode_pure st modeId mev).2, countInit]
  | configE ce => cases ce <;> simp [dispatch, isDoneEv, countInit]

theorem runTrace_append (st : WlMonitorManager) (l₁ l₂ : List ProtocolEvent) :
    runTrace st (l₁ ++ l₂) =
      ((runTrace (runTrace st l₁).1 l₂).1,
       (runTrace st l₁).2 ++ (runTrace (runTrace st l₁).1 l₂).2) := by
  induction l₁ generalizing st with
  | nil => simp [runTrace]
  | cons e rest ih => simp [runTrace, ih, List.append_assoc]

theorem runTrace_initialized (st : WlMonitorManager) (tr : List ProtocolEvent) :
    (runTrace st tr).1.initialized = (st.initialized || tr.any isDoneEv) := by
  induction tr generalizing st with
  | nil => simp [runTrace]
  | cons e rest ih =>
    simp [runTrace, ih, dispatch_initialized, Bool.or_assoc]

theorem countInit_if_arith (a b c : Bool) :
    ((if (a && !b) = true then (1 : Nat) else (0 : Nat))
        + (if (c && !(b || a)) = true then (1 : Nat) else (0 : Nat)))
      = (if ((a || c) && !b) = true then (1 : Nat) else (0 : Nat)) := by
  cases a <;> cases b <;> cases c <;> simp

theorem runTrace_countInit (st : WlMonitorManager) (tr : List ProtocolEvent) :
    countInit (runTrace st tr).2 =
      if tr.any isDoneEv && !st.initialized then 1 else 0 := by
  induction tr generalizing st with
  | nil => simp [runTrace, countInit]
  | cons e rest ih =>
    have hsplit : countInit ((dispatch st e).2 ++ (runTrace (dispatch st e).1 rest).2)
        = countInit (dispatch st e).2 + countInit (runTrace (dispatch st e).1 rest).2 := by
      simp [countInit, List.countP_append]
    simp only [runTrace, hsplit, ih, dispatch_countInit, dispatch_initialized,
      List.any_cons]
    exact countInit_if_arith (isDoneEv e) st.initialized (rest.any isDoneEv)

/-- C2: in any session trace, `InitialState` is emitted exactly once — at the
first `Done` event — and it contains every monitor known at that moment (the
whole monitor table); the trace before the first `Done` emits no
`InitialState`, the run ends initialized, and on any initialized state a
further `Done` only updates the stored serial and emits nothing. -/
theorem c2_initial_state_once (pre post : List ProtocolEvent) (s : Nat)
    (hpre : ∀ e ∈ pre, isDoneEv e = false) :
    (runTrace initManager (pre ++ .manager (.done s) :: post)).2 =
      (runTrace initManager pre).2
        ++ .initialState ((runTrace initManager pre).1.monitors.map Prod.snd)
        :: (runTrace { (runTrace initManager pre).1 with
              serial := some s, initialized := true } post).2
    ∧ countInit (runTrace initManager pre).2 = 0
    ∧ countInit (runTrace initManager (pre ++ .manager (.done s) :: post)).2 = 1
    ∧ (runTrace initManager (pre ++ .manager (.done s) :: post)).1.initialized = true
    ∧ (∀ st : WlMonitorManager, st.initialized = true →
        ∀ s' : Nat, dispatch st (.manager (.done s')) =
          ({ st with serial := some s' }, [])) := by
  have hnd : pre.any isDoneEv = false := by
    simp only [List.any_eq_false]
    intro x hx
    simp [hpre x hx]
  have h0 : (runTrace initManager pre).1.initialized = false := by
    rw [runTrace_initialized]
    simp [initManager, hnd]
  have hdone : dispatch (runTrace initManager pre).1 (.manager (.done s)) =
      ({ (runTrace initManager pre).1 with serial := some s, initialized := true },
       [.initialState ((runTrace initManager pre).1.monitors.map Prod.snd)]) := by
    simp [dispatch, h0]
  refine ⟨?_, ?_, ?_, ?_, ?_⟩
  · rw [runTrace_append]
    simp [runTrace, hdone]
  · rw [runTrace_countInit]
    simp [initManager, hnd]
  · rw [runTrace_countInit]
    simp [initManager, List.any_append, isDoneEv]
  · rw [runTrace_initialized]
    simp [initManager, List.any_append, isDoneEv]
  · intro st hst s'
    simp [dispatch, hst]

/-- Witness for C2 at a concrete trace: one head announced, then the first
`Done` with serial 7, nothing afterwards. -/
theorem c2_initial_state_once_witness :
    (∀ e ∈ [ProtocolEvent.manager (.head 1)], isDoneEv e = false) ∧
    ((runTrace initManager ([ProtocolEvent.manager (.head 1)]
        ++ .manager (.done 7) :: [])).2 =
      (runTrace initManager [ProtocolEvent.manager (.head 1)]).2
        ++ .initialState ((runTrace initManager
              [ProtocolEvent.manager (.head 1)]).1.monitors.map Prod.snd)
        :: (runTrace { (runTrace initManager [ProtocolEvent.manager (.head 1)]).1 with
              serial := some 7, initialized := true } []).2
    ∧ countInit (runTrace initManager [ProtocolEvent.manager (.head 1)]).2 = 0
    ∧ countInit (runTrace initManager ([ProtocolEvent.manager (.head 1)]
        ++ .manager (.done 7) :: [])).2 = 1
    ∧ (runTrace initManager ([ProtocolEvent.manager (.head 1)]
        ++ .manager (.done 7) :: [])).1.initialized = true
    ∧ (∀ st : WlMonitorManager, st.initialized = true →
        ∀ s' : Nat, dispatch st (.manager (.done s')) =
          ({ st with serial := some s' }, []))) :=
  ⟨by decide, c2_initial_state_once [ProtocolEvent.manager (.head 1)] [] 7 (by decide)⟩

theorem applyHeadField_resolution (ev : HeadEvent) (m : WlMonitor) :
    (applyHeadField ev m).resolution = m.resolution := by
  cases ev <;> rfl

theorem lookupA_mem {α : Type} (l : List (Nat × α)) (k : Nat) (v : α)
    (h : lookupA l k = some v) : ∃ p ∈ l, p.2 = v := by
  unfold lookupA at h
  cases hf : l.find? (fun p => p.1 == k) with
  | none => rw [hf] at h; simp at h
  | some q =>
    rw [hf] at h
    simp at h
    exact ⟨q, List.mem_of_find?_eq_some hf, h⟩

theorem resZero_insertA (l : List (Nat × WlMonitor)) (k : Nat) (v : WlMonitor)
    (rz : WlResolution) (h : ∀ p ∈ l, p.2.resolution = rz) (hv : v.resolution = rz) :
    ∀ p ∈ insertA l k v, p.2.resolution = rz := by
  intro p hp
  unfold insertA at hp
  by_cases hc : l.any (fun p => p.1 == k) = true
  · rw [if_pos hc] at hp
    obtain ⟨q, hq, rfl⟩ := List.mem_map.1 hp
    by_cases hk : (q.1 == k) = true
    · rw [if_pos hk]
      exact hv
    · rw [if_neg hk]
      exact h q hq
  · rw [if_neg hc] at hp
    rcases List.mem_append.1 hp with hq | hq
    · exact h p hq
    · simp at hq
      rw [hq]
      exact hv

theorem resZero_updateA (l : List (Nat × WlMonitor)) (k : Nat)
    (f : WlMonitor → WlMonitor) (rz : WlResolution)
    (h : ∀ p ∈ l, p.2.resolution = rz) (hf : ∀ p ∈ l, (f p.2).resolution = rz) :
    ∀ p ∈ updateA l k f, p.2.resolution = rz := by
  intro p hp
  unfold updateA at hp
  obtain ⟨q, hq, rfl⟩ := List.mem_map.1 hp
  by_cases hk : (q.1 == k) = true
  · rw [if_pos hk]
    exact hf q hq
  · rw [if_neg hk]
    exact h q hq

theorem resZero_dispatchHead (st : WlMonitorManager) (hid : Nat) (hev : HeadEvent)
    (h : ∀ p ∈ st.monitors, p.2.resolution = WlResolution.mk 0 0) :
    ∀ p ∈ (dispatchHead st hid hev).1.monitors, p.2.resolution = WlResolution.mk 0 0 := by
  have hmem : ∀ v, lookupA st.monitors hid = some v →
      v.resolution = WlResolution.mk 0 0 := by
    intro v hv
    obtain ⟨p, hp, hpv⟩ := lookupA_mem _ _ _ hv
    rw [← hpv]
    exact h p hp
  cases hev <;>
  first
  | -- the Finished arm: remove the monitor, filter the reverse index
    (simp only [dispatchHead]
     cases hl : lookupA st.monitors hid with
     | none => simp only [hl]; exact h
     | some monitor =>
       simp only [hl]
       intro p hp
       exact h p (List.mem_of_mem_filter hp))
  | -- the Mode arm: append a default-valued mode to the owning monitor
    (simp only [dispatchHead]
     cases hl : lookupA st.monitors hid with
     | none => simp only [hl]; exact h
     | some monitor =>
       simp only [hl]
       refine resZero_updateA st.monitors hid _ _ h ?_
       intro q hq
       simpa using h q hq)
  | -- a field arm: replace the monitor by its field update
    (simp only [dispatchHead]
     cases hl : lookupA st.monitors hid with
     | none => simp only [hl]; exact h
     | some monitor =>
       simp only [hl]
       refine resZero_updateA st.monitors hid _ _ h ?_
       intro q hq
       cases hi : st.initialized <;>
         simp [hi, applyHeadField_resolution, hmem monitor hl])

theorem resZero_dispatchMode (st : WlMonitorManager) (mid : Nat) (mev : ModeEvent)
    (h : ∀ p ∈ st.monitors, p.2.resolution = WlResolution.mk 0 0) :
    ∀ p ∈ (dispatchMode st mid mev).1.monitors, p.2.resolution = WlResolution.mk 0 0 := by
  simp only [dispatchMode]
  cases h1 : lookupA st.mode_monitor mid with
  | none => simp only [h1]; exact h
  | some monitorId =>
    simp only [h1]
    cases h2 : lookupA st.monitors monitorId with
    | none => simp only [h2]; exact h
    | some monitor =>
      simp only [h2]
      cases h3 : updateFirstWith (fun md => md.mode_id == mid) (applyModeEvent mev)
          monitor.modes with
      | none => simp only [h3]; exact h
      | some newModes =>
        simp only [h3]
        refine resZero_updateA st.monitors monitorId _ _ h ?_
        intro q hq
        simpa using h q hq

theorem resZero_dispatch (st : WlMonitorManager) (ev : ProtocolEvent)
    (h : ∀ p ∈ st.monitors, p.2.resolution = WlResolution.mk 0 0) :
    ∀ p ∈ (dispatch st ev).1.monitors, p.2.resolution = WlResolution.mk 0 0 := by
  cases ev with
  | manager me =>
    cases me with
    | head hid =>
      simp only [dispatch]
      exact resZero_insertA st.monitors hid (defaultMonitor hid) _ h rfl
    | done s =>
      cases hi : st.initialized <;> simp only [dispatch, hi] <;> simpa using h
    | otherManager => simpa [dispatch] using h
  | headE hid hev => exact resZero_dispatchHead st hid hev h
  | modeE mid mev => exact resZero_dispatchMode st mid mev h
  | configE ce => cases ce <;> simpa [dispatch] using h

theorem resZero_runTrace (st : WlMonitorManager) (tr : List ProtocolEvent)
    (h : ∀ p ∈ st.monitors, p.2.resolution = WlResolution.mk 0 0) :
    ∀ p ∈ (runTrace st tr).1.monitors, p.2.resolution = WlResolution.mk 0 0 := by
  induction tr generalizing st with
  | nil => simpa [runTrace] using h
  | cons e rest ih =>
    simp only [runTrace]
    exact ih (dispatch st e).1 (resZero_dispatch st e h)

/-- C10: along every protocol event sequence from a fresh session, the
head-level `resolution` field of every monitor in the table stays at its
construction default `{0, 0}` — no head or mode event handler ever writes it
(only the per-mode resolution entries are updated). -/
theorem c10_monitor_resolution_never_populated (tr : List ProtocolEvent) :
    ((runTrace initManager tr).1.monitors.all
      (fun p => p.2.resolution == WlResolution.mk 0 0)) = true := by
  rw [List.all_eq_true]
  intro p hp
  have hz := resZero_runTrace initManager tr (by simp [initManager]) p hp
  simp [hz]
